import Mathlib

/-!
Verification development for the step-table-to-domain-object resolution engine
of django-explicit-behave.

The shallow embedding below translates the core of
`explicit_behave/utils.py` (`parse_step_objects`, `get_to_python_field`,
`ReplaceField`) and the comparison section of
`explicit_behave/db.py` (`database_has_rows`, lines 164-194) into Lean.
External collaborators (the Django ORM managers, `yaml.load`, `json.loads`)
are modelled as explicit oracles or as small executable parsers that follow
the documented behaviour of those libraries on the value shapes this
repository actually passes them.
-/

namespace ExplicitBehave

/-! ## Small helpers: association lists and string scanning -/

/-- Association-list lookup keyed by strings.  Models reading a Python dict. -/
def alookup {β : Type} : List (String × β) → String → Option β
  | [], _ => none
  | (k', v) :: rest, k => if k' = k then some v else alookup rest k

/-- Association-list insert with Python-dict semantics: assigning to an
existing key overwrites the value but keeps the key's original position;
a new key is appended at the end. -/
def alistInsert {β : Type} : List (String × β) → String → β → List (String × β)
  | [], k, v => [(k, v)]
  | (k', v') :: rest, k, v =>
    if k' = k then (k, v) :: rest else (k', v') :: alistInsert rest k v

/-- First character of a string, used to model Python `value.startswith('[')`. -/
def strHead (s : String) : Option Char := s.toList.head?

/-- Last character of a string, used to model Python `value.endswith(']')`. -/
def strLast (s : String) : Option Char := s.toList.getLast?

/-- Models Python `str.isdigit()` on ASCII data: true iff the string is
nonempty and every character is a decimal digit. -/
def strIsDigit (s : String) : Bool := !s.toList.isEmpty && s.toList.all Char.isDigit

/-- Decimal digits to a natural number (the characters must be digits). -/
def digitsToNat (cs : List Char) : Nat := cs.foldl (fun n c => 10 * n + (c.toNat - 48)) 0

/-- Models Python `int(value)` for an unsigned decimal literal. -/
def parseNatStr (s : String) : Option Nat :=
  if strIsDigit s then some (digitsToNat s.toList) else none

/-- Models Python `int(value)`: optional leading minus sign, then digits;
anything else raises `ValueError` (here: `none`). -/
def parseIntStr (s : String) : Option Int :=
  match s.toList with
  | '-' :: rest =>
    if rest.isEmpty then none
    else if rest.all Char.isDigit then some (-(digitsToNat rest : Int))
    else none
  | _ => (parseNatStr s).map Int.ofNat

/-! ## YAML flow sequences (`yaml.load` on bracketed natural-key cells)

`parse_step_objects` only ever feeds `yaml.load` cells of the shape
`[a, b]` or `[[a, b], c]` (one level of nesting, as used by generic
foreign keys), so the model supports exactly flow sequences whose items
are scalars or flat sequences of scalars.  Scalars are kept as trimmed
strings. -/

/-- One item of a parsed natural-key sequence: a scalar or a flat nested
sequence of scalars. -/
inductive YamlItem where
  | scalar (s : String)
  | seq (xs : List String)
deriving DecidableEq, Repr

/-- A parsed natural-key cell: a scalar, or a sequence of `YamlItem`s. -/
inductive Yaml where
  | scalar (s : String)
  | seq (xs : List YamlItem)
deriving DecidableEq, Repr

/-- Split a character list at top-level commas, treating one level of
square brackets as nesting.  Returns the chunks in order. -/
def splitTopLevel (cs : List Char) : List (List Char) :=
  go cs 0 [] []
where
  go : List Char → Nat → List Char → List (List Char) → List (List Char)
    | [], _, cur, out => out ++ [cur.reverse]
    | c :: rest, depth, cur, out =>
      if c = ',' ∧ depth = 0 then go rest depth [] (out ++ [cur.reverse])
      else if c = '[' then go rest (depth + 1) (c :: cur) out
      else if c = ']' then go rest (depth - 1) (c :: cur) out
      else go rest depth (c :: cur) out

/-- Strip spaces from both ends of a character list. -/
def trimChars (cs : List Char) : List Char :=
  ((cs.dropWhile (· = ' ')).reverse.dropWhile (· = ' ')).reverse

/-- Parse one item of a flow sequence: either a nested flat sequence
`[x, y]` or a scalar. -/
def yamlItemOfChars (cs : List Char) : YamlItem :=
  let t := trimChars cs
  match t with
  | '[' :: rest =>
    if rest.getLast? = some ']' then
      .seq ((splitTopLevel (rest.dropLast)).map (fun c => String.mk (trimChars c)))
    else .scalar (String.mk t)
  | _ => .scalar (String.mk t)

/-- Models `yaml.load(value, Loader=yaml.FullLoader)` on the bracketed
cells this code passes it: a flow sequence of scalars and flat nested
sequences.  A non-bracketed input is returned as a scalar (the code only
calls this on bracket-delimited cells). -/
def yamlParse (value : String) : Yaml :=
  match value.toList with
  | '[' :: rest =>
    if rest.getLast? = some ']' then
      let inner := rest.dropLast
      if (trimChars inner).isEmpty then .seq []
      else .seq ((splitTopLevel inner).map yamlItemOfChars)
    else .scalar value
  | _ => .scalar value

/-! ## JSON (`json.loads` / `json.dumps`)

A fuel-indexed recursive-descent parser and printer for the JSON subset
the fixtures use: `null`, booleans, integers, strings without escape
sequences, arrays and objects.  Fuel-based structural recursion keeps
every definition kernel-reducible. -/

/-- JSON values (integers only; the fixtures in question use no floats). -/
inductive Json where
  | null
  | jbool (b : Bool)
  | jnum (n : Int)
  | jstr (s : String)
  | jarr (xs : List Json)
  | jobj (fs : List (String × Json))

/-- Skip blanks, tabs and newlines. -/
def skipWs : List Char → List Char
  | c :: rest =>
    if c = ' ' ∨ c = '\t' ∨ c = '\n' ∨ c = '\r' then skipWs rest else c :: rest
  | [] => []

/-- Read the body of a JSON string up to the closing quote (no escapes). -/
def takeJString : List Char → Option (String × List Char)
  | [] => none
  | '"' :: rest => some ("", rest)
  | c :: rest =>
    if c = '\\' then none
    else (takeJString rest).map (fun sr => (String.mk (c :: sr.1.toList), sr.2))

/-- Take a maximal run of digits. -/
def takeDigits : List Char → List Char × List Char
  | [] => ([], [])
  | c :: rest =>
    if c.isDigit then
      let dr := takeDigits rest
      (c :: dr.1, dr.2)
    else ([], c :: rest)

/-- Read a JSON integer (optional minus sign and digits). -/
def takeJNum (cs : List Char) : Option (Int × List Char) :=
  match cs with
  | '-' :: rest =>
    let dr := takeDigits rest
    if dr.1.isEmpty then none else some (-(digitsToNat dr.1 : Int), dr.2)
  | _ =>
    let dr := takeDigits cs
    if dr.1.isEmpty then none else some ((digitsToNat dr.1 : Int), dr.2)

mutual

/-- Parse one JSON value; `fuel` bounds the recursion depth. -/
def parseJVal : Nat → List Char → Option (Json × List Char)
  | 0, _ => none
  | fuel + 1, cs =>
    match skipWs cs with
    | 'n' :: 'u' :: 'l' :: 'l' :: rest => some (.null, rest)
    | 't' :: 'r' :: 'u' :: 'e' :: rest => some (.jbool true, rest)
    | 'f' :: 'a' :: 'l' :: 's' :: 'e' :: rest => some (.jbool false, rest)
    | '"' :: rest => (takeJString rest).map (fun sr => (.jstr sr.1, sr.2))
    | '[' :: rest =>
      (match skipWs rest with
       | ']' :: r2 => some (.jarr [], r2)
       | _ => (parseJItems fuel rest).map (fun xr => (.jarr xr.1, xr.2)))
    | '{' :: rest =>
      (match skipWs rest with
       | '}' :: r2 => some (.jobj [], r2)
       | _ => (parseJFields fuel rest).map (fun fr => (.jobj fr.1, fr.2)))
    | rest => (takeJNum rest).map (fun nr => (.jnum nr.1, nr.2))

/-- Parse the comma-separated items of a JSON array up to `]`. -/
def parseJItems : Nat → List Char → Option (List Json × List Char)
  | 0, _ => none
  | fuel + 1, cs => do
    let (v, r) ← parseJVal fuel cs
    match skipWs r with
    | ',' :: r2 => (parseJItems fuel r2).map (fun xr => (v :: xr.1, xr.2))
    | ']' :: r2 => some ([v], r2)
    | _ => none

/-- Parse the comma-separated members of a JSON object up to `}`. -/
def parseJFields : Nat → List Char → Option (List (String × Json) × List Char)
  | 0, _ => none
  | fuel + 1, cs =>
    match skipWs cs with
    | '"' :: rest => do
      let (k, r) ← takeJString rest
      match skipWs r with
      | ':' :: r2 => do
        let (v, r3) ← parseJVal fuel r2
        match skipWs r3 with
        | ',' :: r4 => (parseJFields fuel r4).map (fun fr => ((k, v) :: fr.1, fr.2))
        | '}' :: r4 => some ([(k, v)], r4)
        | _ => none
      | _ => none
    | _ => none

end

/-- Models `json.loads(value)`: parse one value and require the remainder
to be blank; `none` models a raised `JSONDecodeError`.  In particular
`parseJson "" = none`, just as `json.loads('')` raises. -/
def parseJson (s : String) : Option Json :=
  match parseJVal (2 * s.length + 4) s.toList with
  | some (j, rest) => if (skipWs rest).isEmpty then some j else none
  | none => none

/-- Fuel-indexed JSON printer with Python `json.dumps` default separators
(item separator a comma plus space, key separator a colon plus space). -/
def jsonDumpF : Nat → Json → String
  | 0, _ => ""
  | fuel + 1, j =>
    match j with
    | .null => "null"
    | .jbool true => "true"
    | .jbool false => "false"
    | .jnum n => toString n
    | .jstr s => "\"" ++ s ++ "\""
    | .jarr xs => "[" ++ String.intercalate ", " (xs.map (jsonDumpF fuel)) ++ "]"
    | .jobj fs =>
      "\x7b" ++
        String.intercalate ", "
          (fs.map (fun kv => "\"" ++ kv.1 ++ "\": " ++ jsonDumpF fuel kv.2)) ++
      "\x7d"

/-- Models `json.dumps(j)` for the supported subset; the fuel bound of
1000 comfortably exceeds the nesting depth of any fixture value. -/
def jsonDump (j : Json) : String := jsonDumpF 1000 j

/-! ## Field kinds and Python values

`get_to_python_field` dispatches on the Django field class of the target
field.  The embedding keeps the scalar field classes it distinguishes
(`CharField`/`TextField`, `JSONField`, and the remaining scalar kinds
through their `to_python`), plus `ForeignKey`, whose conversion is
delegated to the related model's primary-key field. -/

/-- Scalar Django field kinds (spec section 3's primitive subtypes). -/
inductive ScalarKind where
  | intK | floatK | boolK | charK | textK | dateK | datetimeK | jsonK
deriving DecidableEq, Repr

/-- A field kind as seen by the Value Coercer: a scalar field, or a
`ForeignKey` carrying the scalar kind of the related model's primary key. -/
inductive FieldKind where
  | scalar (k : ScalarKind)
  | foreignKey (pk : ScalarKind)
deriving DecidableEq, Repr

/-- A related entity instance fetched from the store. -/
structure Obj where
  pk : Int
  tag : String
deriving DecidableEq, Repr

/-- Python values flowing out of coercion, reference resolution and row
materialization.  `none` is Python `None`; `dec m e` is the decimal
`m / 10^e` (standing in for the floats the fixtures use); `jarr`/`jobj`
are the list/dict results of `json.loads`; `obj` is a model instance. -/
inductive Val where
  | none
  | str (s : String)
  | int (n : Int)
  | bool (b : Bool)
  | dec (m : Int) (e : Nat)
  | date (y mo d : Nat)
  | datetime (y mo d h mi s : Nat)
  | jarr (xs : List Json)
  | jobj (fs : List (String × Json))
  | obj (o : Obj)

/-- The Python value `json.loads` returns: JSON `null`/booleans/numbers/
strings become the corresponding native values, arrays and objects stay
structured. -/
def jsonToVal : Json → Val
  | .null => .none
  | .jbool b => .bool b
  | .jnum n => .int n
  | .jstr s => .str s
  | .jarr xs => .jarr xs
  | .jobj fs => .jobj fs

/-! ### Per-kind `to_python` conversions (Django field classes) -/

/-- Models Django `BooleanField.to_python`. -/
def parseBoolStr (s : String) : Option Bool :=
  if s = "t" ∨ s = "True" ∨ s = "1" then some true
  else if s = "f" ∨ s = "False" ∨ s = "0" then some false
  else none

/-- Split a string at every occurrence of a separator character
(kernel-reducible stand-in for Python `str.split(sep)`). -/
def splitOnChar (sep : Char) (s : String) : List String :=
  (go s.toList [] []).map (fun cs => String.mk cs.reverse)
where
  go : List Char → List Char → List (List Char) → List (List Char)
    | [], cur, out => out ++ [cur]
    | c :: rest, cur, out =>
      if c = sep then go rest [] (out ++ [cur]) else go rest (c :: cur) out

/-- Parse an unsigned decimal number `whole.frac` into mantissa and
decimal-exponent form. -/
def parseDecCore (whole frac : String) : Option (Int × Nat) :=
  if strIsDigit whole && strIsDigit frac then
    some ((digitsToNat (whole.toList ++ frac.toList) : Int), frac.length)
  else none

/-- Unsigned part of `float(value)` for plain decimal literals. -/
def parseDecPos (s : String) : Option (Int × Nat) :=
  match splitOnChar (Char.ofNat 46) s with
  | [whole] => (parseNatStr whole).map (fun n => ((n : Int), 0))
  | [whole, frac] => parseDecCore whole frac
  | _ => none

/-- Models `FloatField.to_python` (Python `float(value)`) on the plain
decimal literals fixtures use. -/
def parseDecStr (s : String) : Option (Int × Nat) :=
  match s.toList with
  | '-' :: rest => (parseDecPos (String.mk rest)).map (fun me => (-me.1, me.2))
  | _ => parseDecPos s

/-- Models Django `parse_date` plus `datetime.date` range validation:
a 4-digit year and 1-2 digit month/day separated by hyphens. -/
def parseDateStr (s : String) : Option (Nat × Nat × Nat) :=
  match splitOnChar '-' s with
  | [y, mo, d] =>
    if strIsDigit y && (y.length == 4) && strIsDigit mo && (mo.length ≤ 2 : Bool)
        && strIsDigit d && (d.length ≤ 2 : Bool) then
      let yn := digitsToNat y.toList
      let mn := digitsToNat mo.toList
      let dn := digitsToNat d.toList
      if 1 ≤ mn ∧ mn ≤ 12 ∧ 1 ≤ dn ∧ dn ≤ 31 then some (yn, mn, dn) else none
    else none
  | _ => none

/-- Models the time part `H:M:S` of Django `parse_datetime`. -/
def parseTimeStr (s : String) : Option (Nat × Nat × Nat) :=
  match splitOnChar ':' s with
  | [h, mi, se] =>
    if strIsDigit h && (h.length ≤ 2 : Bool) && strIsDigit mi && (mi.length ≤ 2 : Bool)
        && strIsDigit se && (se.length ≤ 2 : Bool) then
      let hn := digitsToNat h.toList
      let mn := digitsToNat mi.toList
      let sn := digitsToNat se.toList
      if hn ≤ 23 ∧ mn ≤ 59 ∧ sn ≤ 59 then some (hn, mn, sn) else none
    else none
  | _ => none

/-- Models `DateTimeField.to_python` on the canonical
`YYYY-MM-DD HH:MM:SS` form. -/
def parseDateTimeStr (s : String) : Option (Nat × Nat × Nat × Nat × Nat × Nat) :=
  match splitOnChar ' ' s with
  | [d, t] => do
    let (yn, mn, dn) ← parseDateStr d
    let (hn, min, sn) ← parseTimeStr t
    some (yn, mn, dn, hn, min, sn)
  | _ => none

/-- Per-kind `field.to_python(value)`; `none` models a raised
`ValidationError`.  `CharField`/`TextField` return the string unchanged;
`JSONField.to_python` is never called by `get_to_python_field` (the JSON
branch returns early), so the `jsonK` arm is unreachable there. -/
def toPython (k : ScalarKind) (value : String) : Option Val :=
  match k with
  | .intK => (parseIntStr value).map Val.int
  | .floatK => (parseDecStr value).map (fun me => Val.dec me.1 me.2)
  | .boolK => (parseBoolStr value).map Val.bool
  | .charK => some (.str value)
  | .textK => some (.str value)
  | .dateK => (parseDateStr value).map (fun x => Val.date x.1 x.2.1 x.2.2)
  | .datetimeK =>
    (parseDateTimeStr value).map
      (fun x => Val.datetime x.1 x.2.1 x.2.2.1 x.2.2.2.1 x.2.2.2.2.1 x.2.2.2.2.2)
  | .jsonK => Option.none

/-- The shared tail of `get_to_python_field`:
`try: return field.to_python(value) except ValidationError: return None`. -/
def tryToPython (k : ScalarKind) (value : String) : Val :=
  match toPython k value with
  | some v => v
  | Option.none => Val.none

/-- Error raised by the Value Coercer: an invalid JSON cell
(`json.loads` raising `JSONDecodeError`; the spec's `MalformedJsonError`). -/
inductive CoerceError where
  | malformedJson
deriving DecidableEq, Repr

/-- The two-character cell `''` (two single quotes). -/
def twoSingleQuotes : String := String.mk [Char.ofNat 39, Char.ofNat 39]

/-- Embedding of `utils.get_to_python_field(model, field, value)` with the
field already resolved to its kind.

Source structure (utils.py lines 312-340): a `ForeignKey` maps the empty
string to `None` and otherwise converts through the related model's
primary-key field; a `TextField`/`CharField` maps the empty string to
`None` and the two-character literals `""` and `''` to the empty string;
a `JSONField` returns `json.loads(value)` directly (so a parse failure
propagates); every other case runs `field.to_python(value)` with
`ValidationError` swallowed into `None`. -/
def get_to_python_field (field : FieldKind) (value : String) : Except CoerceError Val :=
  match field with
  | .foreignKey pk =>
    if value = "" then .ok Val.none
    else .ok (tryToPython pk value)
  | .scalar k =>
    match k with
    | .charK | .textK =>
      if value = "" then .ok Val.none
      else if value = "\"\"" ∨ value = twoSingleQuotes then .ok (.str "")
      else .ok (tryToPython k value)
    | .jsonK =>
      match parseJson value with
      | some j => .ok (jsonToVal j)
      | Option.none => .error .malformedJson
    | _ => .ok (tryToPython k value)

/-! ### Spec-side renderer for the round-trip property -/

/-- Zero-pad a number to two digits (Python `str(date)` / `str(datetime)`
form). -/
def pad2 (n : Nat) : String := if n < 10 then "0" ++ toString n else toString n

/-- Render a decimal `m / 10^e` in Python `repr(float)` shortest form for
canonical mantissa/exponent pairs. -/
def renderDec (m : Int) (e : Nat) : String :=
  if e = 0 then toString m
  else
    let sign := if m < 0 then "-" else ""
    let digits := toString m.natAbs
    let padded :=
      if digits.length ≤ e then String.mk (List.replicate (e + 1 - digits.length) '0') ++ digits
      else digits
    let cut := padded.length - e
    sign ++ padded.take cut ++ "." ++ padded.drop cut

/-- Spec-side definition for claim C4's `render`.  The repository has no
dedicated scalar-cell renderer (the serializer hands scalar Python values
through unchanged and the table layer prints them), so this definition
follows the spec's words (sections 4.5 and 6): `null` renders as the
absent/empty cell; a structured (JSON) value renders as its
structured-literal textual form; an empty string on a string field renders
as the two-character literal `""` so that it can round-trip at all; every
other value renders via the type's canonical string form. -/
def render_spec (k : ScalarKind) (v : Val) : String :=
  match v with
  | .none => ""
  | _ =>
    match k with
    | .jsonK =>
      jsonDump
        (match v with
         | .bool b => .jbool b
         | .int n => .jnum n
         | .str s => .jstr s
         | .jarr xs => .jarr xs
         | .jobj fs => .jobj fs
         | _ => .null)
    | _ =>
      match v with
      | .str s => if s = "" then "\"\"" else s
      | .int n => toString n
      | .bool true => "True"
      | .bool false => "False"
      | .dec m e => renderDec m e
      | .date y mo d => toString y ++ "-" ++ pad2 mo ++ "-" ++ pad2 d
      | .datetime y mo d h mi s =>
        toString y ++ "-" ++ pad2 mo ++ "-" ++ pad2 d ++ " " ++
          pad2 h ++ ":" ++ pad2 mi ++ ":" ++ pad2 s
      | _ => ""

/-- Representative values per non-reference scalar kind for the round-trip
property, including `null` for every kind as the claim demands.  String
kinds additionally include the empty string, which the table format can
only express through the two-character literal. -/
def representatives : ScalarKind → List Val
  | .intK => [.none, .int 0, .int 42, .int (-7)]
  | .floatK => [.none, .dec 15 1, .dec (-25) 2, .dec 3 0]
  | .boolK => [.none, .bool true, .bool false]
  | .charK => [.none, .str "", .str "abc"]
  | .textK => [.none, .str "", .str "hello world"]
  | .dateK => [.none, .date 2020 1 2]
  | .datetimeK => [.none, .datetime 2020 1 2 3 4 5]
  | .jsonK => [.none, .int 42, .str "x", .bool true,
               .jarr [.jnum 1, .jnum 2], .jobj [("a", .jnum 1)]]

/-! ## The table-resolution engine (`utils.parse_step_objects`)

The Django model and its managers are external collaborators, embedded as
oracles: an `FkModel` is a related model's manager (`get_by_natural_key`
when the manager defines it, a unique `get(nk=...)` fetch, and
`filter(pk__in=...)`), and a `StepModel` maps a heading to the resolved
field descriptor (`get_field`). -/

/-- The manager/queryset of a related model.  `hasGetByNaturalKey` models
`hasattr(ForeignModel.objects, 'get_by_natural_key')`, `hasNkField`
models `'nk' in [x.name for x in ForeignModel._meta.get_fields()]`,
`getByNaturalKey` is the natural-key lookup (with `none` for a raised
`DoesNotExist`), `nkGet` is `objects.get(nk=...)`, and `fetchByIds` is
`objects.filter(pk__in=ids)`. -/
structure FkModel where
  name : String
  hasGetByNaturalKey : Bool
  getByNaturalKey : List YamlItem → Option Obj
  hasNkField : Bool
  nkGet : YamlItem → Option Obj
  fetchByIds : List String → List Obj

/-- Data of a `GenericForeignKey` heading: the two physical columns it
spans, the content-type model behind `ct_field` and the
`content_type.model_class().objects` resolution. -/
structure GfkInfo where
  ctField : String
  fkField : String
  ctModel : FkModel
  modelClass : Obj → FkModel

/-- What `get_field(Model, heading)` returns for a heading: a
`GenericForeignKey`, or an ordinary field with its canonical name, its
coercion kind and (for a `ForeignKey`) the related model. -/
inductive HeaderField where
  | gfk (g : GfkInfo)
  | plain (name : String) (kind : FieldKind) (related : Option FkModel)

/-- The step's model: heading to field descriptor; `none` models
`FieldDoesNotExist`. -/
def StepModel : Type := String → Option HeaderField

/-- One table row as behave provides it: heading to raw cell string. -/
def Row : Type := List (String × String)

/-- `row[field]` (all headings are present in a behave row; a missing
key yields the empty cell). -/
def Row.get (r : Row) (f : String) : String := (alookup r f).getD ""

/-- A step table: ordered headings and ordered rows. -/
structure Table where
  headings : List String
  rows : List Row

/-- Errors the resolution pass can raise, carrying the data the Python
exceptions interpolate into their messages. -/
inductive StepError where
  | fieldDoesNotExist (field : String)
  /-- `ValueError(f'Please specify a natural key as "[<value>]"')`. -/
  | ambiguousValue (value : String)
  /-- The explicitly constructed
  `DoesNotExist(f'<Model> matching <nk_args> does not exist.')`:
  it names the target model and the key. -/
  | referenceNotFound (model : String) (key : List YamlItem)
  /-- A bare re-raised / uncaught `DoesNotExist` of the named model:
  it does not carry the looked-up key. -/
  | doesNotExistBare (model : String)
  /-- `NameError`: the id-collection loop reads the row-loop variable
  after the loop, which is unbound when the table has no rows. -/
  | nameError
  | attributeError (what : String)
  | indexError
  | malformedJson
deriving Repr

/-- A resolved reference-cache entry: a plain value (entity or `None`) or
a `ReplaceField` (the `dict` subclass of utils.py lines 304-309) that
expands into several field assignments. -/
inductive CacheVal where
  | plain (v : Val)
  | replace (fs : List (String × Val))

/-- A store query issued while resolving one table. -/
inductive Query where
  /-- `related_model.objects.filter(pk__in=ids)` for one field. -/
  | fetchByIds (field : String) (ids : List String)
  /-- `objects.get_by_natural_key(*args)` on the named model. -/
  | nkLookup (model : String) (args : List YamlItem)
  /-- `objects.get(nk=arg)` on the named model. -/
  | nkGet (model : String) (arg : YamlItem)
deriving Repr

/-- Result of the heading scan (utils.py lines 176-200): the natural-key
capable fields with their related models (`obj_by_nk_by_field` keys plus
`fk_model_by_field`), the identifier-capable fields
(`obj_by_id_by_field` keys), and the generic-foreign-key headings. -/
structure HeaderScan where
  nkFields : List (String × FkModel)
  idFields : List (String × FkModel)
  gfkFields : List (String × GfkInfo)

/-- Heading scan: classify every heading.  A `GenericForeignKey` heading
contributes its content-type model and is never identifier-capable; an
ordinary `ForeignKey` is always identifier-capable; either is
natural-key capable when the related model's manager defines
`get_by_natural_key` or the related model has a field named `nk`. -/
def scanHeadings (M : StepModel) (headings : List String) : Except StepError HeaderScan :=
  headings.foldlM
    (fun (scan : HeaderScan) f =>
      match M f with
      | Option.none => .error (.fieldDoesNotExist f)
      | some (.gfk g) =>
        let scan := { scan with gfkFields := scan.gfkFields ++ [(f, g)] }
        if g.ctModel.hasGetByNaturalKey || g.ctModel.hasNkField then
          .ok { scan with nkFields := scan.nkFields ++ [(f, g.ctModel)] }
        else .ok scan
      | some (.plain _ _ Option.none) => .ok scan
      | some (.plain _ _ (some fkm)) =>
        let scan := { scan with idFields := scan.idFields ++ [(f, fkm)] }
        if fkm.hasGetByNaturalKey || fkm.hasNkField then
          .ok { scan with nkFields := scan.nkFields ++ [(f, fkm)] }
        else .ok scan)
    ⟨[], [], []⟩

/-- Classify one cell of a natural-key capable field (utils.py lines
206-217): an empty cell is skipped; a bracket-delimited cell is parsed
with `yaml.load`; any other non-digit cell raises
`ValueError(f'Please specify a natural key as "[<value>]"')`; a bare
digit string is skipped (a literal identifier). -/
def scanNkCell (value : String) : Except StepError (Option Yaml) :=
  if value = "" then .ok Option.none
  else if strHead value = some '[' ∧ strLast value = some ']' then
    .ok (some (yamlParse value))
  else if strIsDigit value = false then .error (.ambiguousValue value)
  else .ok Option.none

/-- The per-field natural-key collections, in `obj_by_nk_by_field`
iteration order: field, related model, raw-cell-to-parsed-key entries. -/
def NkColl : Type := List (String × FkModel × List (String × Yaml))

/-- Scan one row's cells across every natural-key capable field
(the body of the loop at utils.py lines 203-217). -/
def collectNkRow (acc : NkColl) (row : Row) : Except StepError NkColl :=
  acc.mapM
    (fun fme => do
      let value := row.get fme.1
      match (← scanNkCell value) with
      | some y => pure (fme.1, fme.2.1, alistInsert fme.2.2 value y)
      | Option.none => pure fme)

/-- Scan every row (utils.py lines 203-217), starting from empty
per-field maps created by the heading scan. -/
def collectNk (nkFields : List (String × FkModel)) (rows : List Row) :
    Except StepError NkColl :=
  rows.foldlM collectNkRow (nkFields.map (fun fm => (fm.1, fm.2, [])))

/-- The identifier-collection loop (utils.py lines 219-222).  In the
source this loop sits OUTSIDE the row loop (it is indented at function
level), so it reads the row variable `item` left over from the loop
above: only the LAST row's cells are examined, and with at least one
identifier-capable field but no rows the name `item` is unbound
(`NameError`). -/
def collectIds (idFields : List (String × FkModel)) (rows : List Row) :
    Except StepError (List (String × FkModel × List (String × Option Obj))) :=
  match idFields, rows.getLast? with
  | [], _ => .ok []
  | _ :: _, Option.none => .error .nameError
  | fs, some item =>
    .ok (fs.map
      (fun fm =>
        let value := item.get fm.1
        (fm.1, fm.2, if strIsDigit value then [(value, Option.none)] else [])))

/-- The single id-set fetch per field (utils.py lines 224-227):
`filter(pk__in=value_map.keys())`, then `value_map[str(instance.id)] =
instance` for every returned instance. -/
def fetchIds (coll : List (String × FkModel × List (String × Option Obj))) :
    List (String × List (String × Option Obj)) × List Query :=
  coll.foldl
    (fun acc fme =>
      let ids := fme.2.2.map (fun p => p.1)
      let fetched := fme.2.1.fetchByIds ids
      let updated := fetched.foldl (fun es o => alistInsert es (toString o.pk) (some o)) fme.2.2
      (acc.1 ++ [(fme.1, updated)], acc.2 ++ [.fetchByIds fme.1 ids]))
    ([], [])

/-- Splat `*nk_args` of the parsed cell into positional lookup arguments.
A parsed bracketed cell is always a sequence; the scalar arm records that
Python would iterate a bare string (the call sites never produce one). -/
def yamlArgs : Yaml → List YamlItem
  | .seq xs => xs
  | .scalar s => [.scalar s]

/-- Splat `*nk_args[0]` (the type key of a generic reference). -/
def gfkTypeArgs : YamlItem → List YamlItem
  | .seq xs => xs.map YamlItem.scalar
  | .scalar s => [.scalar s]

/-- Normalize `nk_elements = nk_args[1]` (utils.py lines 242-244): a bare
string becomes a one-element list, a nested sequence is splatted. -/
def gfkElements : YamlItem → List YamlItem
  | .scalar s => [.scalar s]
  | .seq xs => xs.map YamlItem.scalar

/-- Resolve one `(field, raw cell)` entry of a plain (non-generic)
natural-key capable field (utils.py lines 263-274):

* when the manager defines `get_by_natural_key`, a hit is cached; a miss
  (`DoesNotExist`) is cached as `None`, unless `raise_exceptions` is set,
  in which case a `DoesNotExist` naming the model and the key is raised;
* when the manager lacks it (`AttributeError`), the code falls back to
  `queryset.get(nk=nk_args[0])`, whose own `DoesNotExist` on a miss is
  raised unconditionally — the `raise_exceptions` guard does not apply
  inside this `except AttributeError:` handler. -/
def resolveNkLookup (fkm : FkModel) (strict : Bool) (y : Yaml) :
    Except StepError (CacheVal × List Query) :=
  if fkm.hasGetByNaturalKey then
    match fkm.getByNaturalKey (yamlArgs y) with
    | some o => .ok (.plain (.obj o), [.nkLookup fkm.name (yamlArgs y)])
    | Option.none =>
      if strict then .error (.referenceNotFound fkm.name (yamlArgs y))
      else .ok (.plain Val.none, [.nkLookup fkm.name (yamlArgs y)])
  else
    match yamlArgs y with
    | [] => .error .indexError
    | a :: _ =>
      match fkm.nkGet a with
      | some o => .ok (.plain (.obj o), [.nkGet fkm.name a])
      | Option.none => .error (.doesNotExistBare fkm.name)

/-- Resolve one `(field, raw cell)` entry of a generic-foreign-key field
(utils.py lines 233-262): look the content type up by the nested key in
element 0, then look the instance up by element 1 inside
`content_type.model_class()`, and cache a `ReplaceField` with the
content type under `ct_field`, the instance's pk under `fk_field` and
the instance under the logical field.

The `except` clause catches only the CONTENT TYPE model's `DoesNotExist`
(`fk_model_by_field[field_name].DoesNotExist`): a missing type re-raises
bare in strict mode and caches an all-`None` `ReplaceField` otherwise,
while a missing INSTANCE raises the instance model's `DoesNotExist`,
which that clause does not catch — it propagates in both modes. -/
def resolveGfk (g : GfkInfo) (fieldName : String) (strict : Bool) (y : Yaml) :
    Except StepError (CacheVal × List Query) :=
  match y with
  | .seq (t :: i :: _) =>
    let tArgs := gfkTypeArgs t
    if g.ctModel.hasGetByNaturalKey then
      match g.ctModel.getByNaturalKey tArgs with
      | Option.none =>
        if strict then .error (.doesNotExistBare g.ctModel.name)
        else
          .ok (.replace [(g.ctField, Val.none), (g.fkField, Val.none), (fieldName, Val.none)],
               [.nkLookup g.ctModel.name tArgs])
      | some ct =>
        let instM := g.modelClass ct
        if instM.hasGetByNaturalKey then
          match instM.getByNaturalKey (gfkElements i) with
          | Option.none => .error (.doesNotExistBare instM.name)
          | some o =>
            .ok (.replace [(g.ctField, .obj ct), (g.fkField, .int o.pk), (fieldName, .obj o)],
                 [.nkLookup g.ctModel.name tArgs, .nkLookup instM.name (gfkElements i)])
        else .error (.attributeError instM.name)
    else .error (.attributeError g.ctModel.name)
  | _ => .error .indexError

/-- Resolve every collected entry of one field (the inner loop of
utils.py lines 230-274), accumulating the cache and the issued queries. -/
def resolveEntries (gfks : List (String × GfkInfo)) (field : String) (fkm : FkModel)
    (strict : Bool) (entries : List (String × Yaml)) :
    Except StepError (List (String × CacheVal) × List Query) :=
  entries.foldlM
    (fun acc e => do
      let (cv, qs) ←
        match alookup gfks field with
        | some g => resolveGfk g field strict e.2
        | Option.none => resolveNkLookup fkm strict e.2
      pure (acc.1 ++ [(e.1, cv)], acc.2 ++ qs))
    ([], [])

/-- Resolve all natural-key collections (utils.py lines 229-274),
field by field in `obj_by_nk_by_field` order. -/
def resolveAllNk (gfks : List (String × GfkInfo)) (strict : Bool) (coll : NkColl) :
    Except StepError (List (String × List (String × CacheVal)) × List Query) :=
  coll.foldlM
    (fun acc fme => do
      let (cache, qs) ← resolveEntries gfks fme.1 fme.2.1 strict fme.2.2
      pure (acc.1 ++ [(fme.1, cache)], acc.2 ++ qs))
    ([], [])

/-- Canonical field name of a heading (`get_field(Model, field).name`),
used to rename an identifier-resolved column (utils.py line 289).  Only
plain fields ever take this path. -/
def fieldNameOf (M : StepModel) (field : String) : String :=
  match M field with
  | some (.plain n _ _) => n
  | _ => field

/-- Materialize one cell of one row (the body of the loop at utils.py
lines 279-300):

* a cell whose `(field, raw text)` pair is in the natural-key cache takes
  the cached value — `obj_by_nk_by_field[field].get(str_value, str_value)`
  runs under the membership test on the line above, so its raw-text
  default can never fire and a failed non-strict lookup materializes the
  cached `None`;
* otherwise a cell found in the identifier map takes the fetched instance
  (or `None` when the fetch returned nothing for that id) and the key is
  rewritten to the field's canonical name;
* otherwise the cell is coerced with `get_to_python_field`;
* a `ReplaceField` value is expanded entry by entry into the row mapping,
  anything else is assigned to the single key. -/
def materializeCell (M : StepModel) (nkCache : List (String × List (String × CacheVal)))
    (idCache : List (String × List (String × Option Obj)))
    (acc : List (String × Val)) (field : String) (str_value : String) :
    Except StepError (List (String × Val)) :=
  match (alookup nkCache field).bind (fun m => alookup m str_value) with
  | some cv =>
    match cv with
    | .replace fs => .ok (fs.foldl (fun a kv => alistInsert a kv.1 kv.2) acc)
    | .plain v => .ok (alistInsert acc field v)
  | Option.none =>
    match (alookup idCache field).bind (fun m => alookup m str_value) with
    | some o? =>
      let v : Val := match o? with | some o => .obj o | Option.none => Val.none
      .ok (alistInsert acc (fieldNameOf M field) v)
    | Option.none =>
      match M field with
      | some (.plain _ kind _) =>
        match get_to_python_field kind str_value with
        | .ok v => .ok (alistInsert acc field v)
        | .error _ => .error .malformedJson
      | some (.gfk _) => .error (.attributeError field)
      | Option.none => .error (.fieldDoesNotExist field)

/-- Materialize one row (utils.py lines 276-301). -/
def materializeRow (M : StepModel) (nkCache : List (String × List (String × CacheVal)))
    (idCache : List (String × List (String × Option Obj)))
    (headings : List String) (row : Row) : Except StepError (List (String × Val)) :=
  headings.foldlM
    (fun acc field => materializeCell M nkCache idCache acc field (row.get field))
    []

/-- Embedding of `utils.parse_step_objects(context, Model,
raise_exceptions)`: scan the headings, collect the natural keys over all
rows and the literal identifiers (from the stranded last-row loop), fetch
identifiers in one query per field, resolve every collected natural key,
then materialize each row.  Returns the materialized rows together with
the store queries the pass issued. -/
def parse_step_objects (M : StepModel) (table : Table) (raise_exceptions : Bool) :
    Except StepError (List (List (String × Val)) × List Query) := do
  let scan ← scanHeadings M table.headings
  let nkColl ← collectNk scan.nkFields table.rows
  let idColl ← collectIds scan.idFields table.rows
  let (idCache, idQueries) := fetchIds idColl
  let (nkCache, nkQueries) ← resolveAllNk scan.gfkFields raise_exceptions nkColl
  let rows ← table.rows.mapM (materializeRow M nkCache idCache table.headings)
  pure (rows, idQueries ++ nkQueries)

/-! ## The assertion comparison (`db.database_has_rows`, lines 164-194)

Each side of the comparison is a sequence of entities rendered through
`extract_field_value`; the embedding abstracts one rendered entity as a
function from field path to value.  The comparison is generic in the
value type, which only needs decidable equality. -/

/-- Failures of the comparison, carrying exactly the data the Python
exceptions and assertion payloads interpolate:

* `multipleObjects` is `Model.MultipleObjectsReturned(f'Uniquely
  identifying rows by <filter_fields> is not enough. Specify fields whose
  combination is guaranteed to be unique.')` — its payload is the
  identifying-field list alone, with neither the duplicate key nor the
  colliding rows;
* `keySetMismatch` is the first `assert`'s payload
  `(actual_values_by_id.keys(), expected_values_by_id.keys())`;
* `rowMismatch` is the second `assert`'s payload
  `(actual_values_by_id[id_], expected_values_by_id[id_])`;
* `keyError` models `clean_row[field]` with an identifying field missing
  from the headings. -/
inductive CmpError (α : Type) where
  | multipleObjects (filterFields : List String)
  | keySetMismatch (actualKeys expectedKeys : List (List α))
  | rowMismatch (actual expected : List (String × α))
  | keyError (field : String)
deriving Repr

/-- `clean_row[field]` for the identifying tuple (raises `KeyError` when
the field is not among the headings). -/
def keyOfRow {α : Type} : List String → List (String × α) → Except (CmpError α) (List α)
  | [], _ => .ok []
  | f :: fs, row =>
    match alookup row f with
    | some v =>
      match keyOfRow fs row with
      | .ok ks => .ok (v :: ks)
      | .error e => .error e
    | Option.none => .error (.keyError f)

/-- The loop of db.py lines 166-172 with its accumulator made explicit. -/
def buildActualGo {α : Type} [DecidableEq α] (filterFields fields : List String) :
    List (String → α) → List (List α × List (String × α)) →
    Except (CmpError α) (List (List α × List (String × α)))
  | [], acc => .ok acc
  | get :: rest, acc =>
    let cleanRow := fields.map (fun f => (f, get f))
    match keyOfRow filterFields cleanRow with
    | .error e => .error e
    | .ok key =>
      if key ∈ acc.map Prod.fst then .error (.multipleObjects filterFields)
      else buildActualGo filterFields fields rest (acc ++ [(key, cleanRow)])

/-- Build `actual_values_by_id` (db.py lines 166-172): insert each
queryset row keyed by its identifying tuple, raising
`MultipleObjectsReturned` as soon as a key repeats — before any
comparison with the expected side happens. -/
def buildActualById {α : Type} [DecidableEq α] (filterFields fields : List String)
    (entities : List (String → α)) :
    Except (CmpError α) (List (List α × List (String × α))) :=
  buildActualGo filterFields fields entities []

/-- Dict insert keyed by an identifying tuple (expected side overwrites
silently, db.py line 188). -/
def tupleInsert {α : Type} [DecidableEq α] (l : List (List α × List (String × α)))
    (k : List α) (v : List (String × α)) : List (List α × List (String × α)) :=
  match l with
  | [] => [(k, v)]
  | (k', v') :: rest => if k' = k then (k, v) :: rest else (k', v') :: tupleInsert rest k v

/-- The loop of db.py lines 185-188 with its accumulator made explicit. -/
def buildExpectedGo {α : Type} [DecidableEq α] (filterFields fields : List String) :
    List (String → α) → List (List α × List (String × α)) →
    Except (CmpError α) (List (List α × List (String × α)))
  | [], acc => .ok acc
  | get :: rest, acc =>
    let cleanRow := fields.map (fun f => (f, get f))
    match keyOfRow filterFields cleanRow with
    | .error e => .error e
    | .ok key => buildExpectedGo filterFields fields rest (tupleInsert acc key cleanRow)

/-- Build `expected_values_by_id` (db.py lines 182-188): same keying, but
a repeated key silently overwrites. -/
def buildExpectedById {α : Type} [DecidableEq α] (filterFields fields : List String)
    (rows : List (String → α)) :
    Except (CmpError α) (List (List α × List (String × α))) :=
  buildExpectedGo filterFields fields rows []

/-- Python `dict.keys() == dict.keys()`: set equality of the key views. -/
def sameKeySet {α : Type} (a b : List (List α)) : Prop :=
  (∀ k ∈ a, k ∈ b) ∧ (∀ k ∈ b, k ∈ a)

instance {α : Type} [DecidableEq α] (a b : List (List α)) : Decidable (sameKeySet a b) :=
  inferInstanceAs (Decidable (_ ∧ _))

/-- Python `dict == dict` on two rendered rows: equal key sets and equal
values key by key. -/
def dictEq {α : Type} (a b : List (String × α)) : Prop :=
  (∀ k ∈ a.map Prod.fst, alookup a k = alookup b k) ∧
  (∀ k ∈ b.map Prod.fst, k ∈ a.map Prod.fst)

instance {α : Type} [DecidableEq α] (a b : List (String × α)) : Decidable (dictEq a b) :=
  inferInstanceAs (Decidable (_ ∧ _))

/-- The per-key comparison loop (db.py lines 193-194), walking the
expected mapping in insertion order and failing with both rows at the
first mismatch. -/
def compareRows {α : Type} [DecidableEq α]
    (actualById : List (List α × List (String × α))) :
    List (List α × List (String × α)) → Except (CmpError α) Unit
  | [] => .ok ()
  | ke :: rest =>
    match actualById.find? (fun p => decide (p.1 = ke.1)) with
    | some p =>
      if dictEq p.2 ke.2 then compareRows actualById rest
      else .error (.rowMismatch p.2 ke.2)
    | Option.none => .error (.keyError "")

/-- Embedding of the comparison tail of `db.database_has_rows` (db.py
lines 164-194): build the actual mapping (duplicate identifying tuples
fail fast with `MultipleObjectsReturned`), build the expected mapping,
require the two key sets to be equal as sets (reporting both key views on
mismatch), then compare the rows key by key in expected-insertion order
(reporting both rows on the first mismatch). -/
def database_has_rows_compare {α : Type} [DecidableEq α]
    (filterFields fields : List String)
    (actualEntities expectedRows : List (String → α)) : Except (CmpError α) Unit :=
  match buildActualById filterFields fields actualEntities with
  | .error e => .error e
  | .ok actualById =>
    match buildExpectedById filterFields fields expectedRows with
    | .error e => .error e
    | .ok expectedById =>
      if sameKeySet (actualById.map Prod.fst) (expectedById.map Prod.fst) then
        compareRows actualById expectedById
      else .error (.keySetMismatch (actualById.map Prod.fst) (expectedById.map Prod.fst))

/-! ## Concrete models used by the example-level theorems -/

/-- A related model whose natural-key lookup always misses
(`Customer` with a `get_by_natural_key` manager method). -/
def customerMissModel : FkModel :=
  { name := "Customer", hasGetByNaturalKey := true,
    getByNaturalKey := fun _ => Option.none, hasNkField := false,
    nkGet := fun _ => Option.none, fetchByIds := fun _ => [] }

/-- A related model supporting only identifier lookup (no natural-key
capability), with entities of pk 1 and 2 in the store. -/
def authorIdModel : FkModel :=
  { name := "Author", hasGetByNaturalKey := false,
    getByNaturalKey := fun _ => Option.none, hasNkField := false,
    nkGet := fun _ => Option.none,
    fetchByIds := fun ids =>
      (if ids.contains "1" then [Obj.mk 1 "a1"] else []) ++
      (if ids.contains "2" then [Obj.mk 2 "a2"] else []) }

/-- A related model exposing only a field named `nk` (no
`get_by_natural_key` on the manager), holding the entity `S1`. -/
def studentNkModel : FkModel :=
  { name := "Student", hasGetByNaturalKey := false,
    getByNaturalKey := fun _ => Option.none, hasNkField := true,
    nkGet := fun a => if a = .scalar "S1" then some (Obj.mk 3 "s1") else Option.none,
    fetchByIds := fun _ => [] }

/-- A content-type registry resolving the `(app, question)` pair. -/
def ctRegistry : FkModel :=
  { name := "ContentType", hasGetByNaturalKey := true,
    getByNaturalKey := fun args =>
      if args = [.scalar "app", .scalar "question"] then some (Obj.mk 1 "ct-question")
      else Option.none,
    hasNkField := false, nkGet := fun _ => Option.none, fetchByIds := fun _ => [] }

/-- An instance model whose natural-key lookup finds `Q1`. -/
def questionHitModel : FkModel :=
  { name := "Question", hasGetByNaturalKey := true,
    getByNaturalKey := fun args =>
      if args = [.scalar "Q1"] then some (Obj.mk 7 "q1") else Option.none,
    hasNkField := false, nkGet := fun _ => Option.none, fetchByIds := fun _ => [] }

/-- An instance model whose natural-key lookup always misses. -/
def questionMissModel : FkModel :=
  { name := "Question", hasGetByNaturalKey := true,
    getByNaturalKey := fun _ => Option.none,
    hasNkField := false, nkGet := fun _ => Option.none, fetchByIds := fun _ => [] }

/-- A generic-foreign-key column whose instance lookup succeeds. -/
def gfkHitInfo : GfkInfo :=
  { ctField := "content_type", fkField := "object_id",
    ctModel := ctRegistry, modelClass := fun _ => questionHitModel }

/-- A generic-foreign-key column whose instance lookup misses. -/
def gfkMissInfo : GfkInfo :=
  { ctField := "content_type", fkField := "object_id",
    ctModel := ctRegistry, modelClass := fun _ => questionMissModel }

/-- Model for the identifier-batching scenario: a scalar `name` column
and a `ForeignKey` column `author` whose target has no natural-key
capability. -/
def batchModel : StepModel := fun f =>
  if f = "name" then some (.plain "name" (.scalar .charK) Option.none)
  else if f = "author" then some (.plain "author" (.foreignKey .intK) (some authorIdModel))
  else Option.none

/-- Two rows referencing the two distinct identifiers 1 and 2. -/
def batchTable : Table :=
  { headings := ["name", "author"],
    rows := [[("name", "n1"), ("author", "1")], [("name", "n2"), ("author", "2")]] }

/-- Model with a single natural-key capable `customer` column whose
target lookup misses. -/
def custMissStepModel : StepModel := fun f =>
  if f = "customer" then some (.plain "customer" (.foreignKey .intK) (some customerMissModel))
  else Option.none

/-- A one-row table naming the unresolvable natural key `[X]`. -/
def custMissTable : Table :=
  { headings := ["customer"], rows := [[("customer", "[X]")]] }

/-- Model with a single generic-reference column whose instance lookup
misses. -/
def gfkMissStepModel : StepModel := fun f =>
  if f = "content_object" then some (.gfk gfkMissInfo) else Option.none

/-- A one-row table naming a generic reference whose type resolves but
whose instance does not exist. -/
def gfkMissTable : Table :=
  { headings := ["content_object"],
    rows := [[("content_object", "[[app, question], [Q1]]")]] }

/-- A rendered entity over the headings `id` and `name`: identifying
value `x`, remaining value `y`. -/
def cmpRow {α : Type} (x y : α) : String → α := fun f => if f = "id" then x else y

/-! ## Helper lemmas -/

/-- Per-kind `to_python` never produces a model instance; only the
Reference Resolver introduces entities into a row. -/
theorem toPython_not_obj (k : ScalarKind) (s : String) (o : Obj) :
    toPython k s ≠ some (.obj o) := by
  cases k <;> simp [toPython]

/-! ## Claim theorems -/

/-- Claim C1, counterexample.  The claim states that for EVERY natural-key
lookup during table resolution a miss in non-strict mode stores `null` in
the cache and resolution proceeds without raising.  Refutation: a
generic-reference cell whose type resolves but whose instance lookup
misses makes the whole non-strict resolution raise the instance model's
`DoesNotExist` — the `except` clause only catches the content-type
model's exception class (utils.py lines 249-252). -/
theorem claim_C1_counterexample :
    parse_step_objects gfkMissStepModel gfkMissTable false =
      .error (.doesNotExistBare "Question") := by rfl

/-- Claim C1, amended: for every natural-key lookup on a plain
(non-generic) reference field whose target manager provides
`get_by_natural_key`, a miss in strict mode fails with a not-found error
naming the target type and the key, and a miss in non-strict mode
resolves to the cached `null` so the rest of the table proceeds
(utils.py lines 263-270). -/
theorem claim_C1_amended (fkm : FkModel) (strict : Bool) (xs : List YamlItem)
    (hMgr : fkm.hasGetByNaturalKey = true)
    (hMiss : fkm.getByNaturalKey xs = Option.none) :
    (strict = true → resolveNkLookup fkm strict (.seq xs) =
        .error (.referenceNotFound fkm.name xs)) ∧
    (strict = false → resolveNkLookup fkm strict (.seq xs) =
        .ok (.plain Val.none, [.nkLookup fkm.name xs])) := by
  constructor <;> rintro rfl <;> simp [resolveNkLookup, yamlArgs, hMgr, hMiss]

/-- Claim C1, witness: both modes of the amended statement at a concrete
missing key. -/
theorem claim_C1_witness :
    resolveNkLookup customerMissModel true (.seq [.scalar "X"]) =
      .error (.referenceNotFound "Customer" [.scalar "X"]) ∧
    resolveNkLookup customerMissModel false (.seq [.scalar "X"]) =
      .ok (.plain Val.none, [.nkLookup "Customer" [.scalar "X"]]) :=
  ⟨(claim_C1_amended customerMissModel true [.scalar "X"] rfl rfl).1 rfl,
   (claim_C1_amended customerMissModel false [.scalar "X"] rfl rfl).2 rfl⟩

/-- Claim C2, failing evaluation.  The claim states that every distinct
identifier appearing in ANY row of an identifier-capable field is
collected and fetched with one `pk__in` query per field.  In the source
the collection loop (utils.py lines 219-222) sits outside the row loop
and reads the stale row variable, so only the LAST row's identifiers are
collected: on the two-row table referencing ids 1 and 2, the single
`fetchByIds` query asks for `["2"]` alone, and row one's cell `"1"`
bypasses the identifier map entirely (it is merely coerced to the
integer 1 instead of being resolved to the `Author` with pk 1). -/
theorem claim_C2_failing_eval :
    parse_step_objects batchModel batchTable false =
      .ok ([[("name", .str "n1"), ("author", .int 1)],
            [("name", .str "n2"), ("author", .obj (Obj.mk 2 "a2"))]],
           [.fetchByIds "author" ["2"]]) := by rfl

/-- Claim C3: a generic-reference cell parsed as a two-element sequence —
a nested type key and an instance key (scalar or nested) — resolves the
type first, then the instance inside the resolved type, and caches a
`ReplaceField` with exactly three assignments: the type-selector field's
value, the identifier field's value, and the logical field bound to the
resolved instance (utils.py lines 233-262). -/
theorem claim_C3 (g : GfkInfo) (fieldName : String) (strict : Bool)
    (tks : List String) (i : YamlItem) (ct o : Obj)
    (hCtMgr : g.ctModel.hasGetByNaturalKey = true)
    (hCt : g.ctModel.getByNaturalKey (tks.map YamlItem.scalar) = some ct)
    (hInstMgr : (g.modelClass ct).hasGetByNaturalKey = true)
    (hInst : (g.modelClass ct).getByNaturalKey (gfkElements i) = some o) :
    resolveGfk g fieldName strict (.seq [.seq tks, i]) =
      .ok (.replace [(g.ctField, .obj ct), (g.fkField, .int o.pk), (fieldName, .obj o)],
           [.nkLookup g.ctModel.name (tks.map YamlItem.scalar),
            .nkLookup (g.modelClass ct).name (gfkElements i)]) := by
  simp [resolveGfk, gfkTypeArgs, hCtMgr, hCt, hInstMgr, hInst]

/-- Claim C3, witness: the concrete cell `[[app, question], [Q1]]`
resolved against a registry holding the type and the instance. -/
theorem claim_C3_witness :
    resolveGfk gfkHitInfo "content_object" true (.seq [.seq ["app", "question"], .seq ["Q1"]]) =
      .ok (.replace [("content_type", .obj (Obj.mk 1 "ct-question")),
                     ("object_id", .int 7),
                     ("content_object", .obj (Obj.mk 7 "q1"))],
           [.nkLookup "ContentType" [.scalar "app", .scalar "question"],
            .nkLookup "Question" [.scalar "Q1"]]) :=
  claim_C3 gfkHitInfo "content_object" true ["app", "question"] (.seq ["Q1"])
    (Obj.mk 1 "ct-question") (Obj.mk 7 "q1") rfl rfl rfl rfl

/-- Claim C4, counterexample.  The claim demands
`coerce(render(v)) == v` for every non-reference scalar kind including
`null`.  On a JSON-typed field, `null` renders as the empty cell and the
coercer feeds it straight to the JSON parser with no empty-cell guard
(utils.py line 336), so coercion raises `MalformedJsonError` instead of
yielding `null`. -/
theorem claim_C4_counterexample :
    render_spec .jsonK Val.none = "" ∧
    get_to_python_field (.scalar .jsonK) (render_spec .jsonK Val.none) =
      .error .malformedJson :=
  ⟨rfl, rfl⟩

/-- Claim C4, amended: `coerce(render(v)) == v` holds for every
non-reference scalar kind at every representative value including
`null`, EXCEPT `null` on a JSON-typed field, whose empty rendering makes
the coercer raise `MalformedJsonError`. -/
theorem claim_C4_amended :
    ∀ (k : ScalarKind), ∀ v ∈ representatives k,
      (¬(k = .jsonK ∧ v = Val.none) →
        get_to_python_field (.scalar k) (render_spec k v) = .ok v) ∧
      ((k = .jsonK ∧ v = Val.none) →
        get_to_python_field (.scalar k) (render_spec k v) = .error .malformedJson) := by
  intro k v hv
  cases k <;> fin_cases hv <;>
    first
      | exact ⟨fun _ => rfl, fun h => ScalarKind.noConfusion h.1⟩
      | exact ⟨fun hne => absurd ⟨rfl, rfl⟩ hne, fun _ => rfl⟩
      | exact ⟨fun _ => rfl, fun h => Val.noConfusion h.2⟩

/-- Claim C4, witness: one round-tripping representative and the JSON
`null` exception, both through the amended theorem. -/
theorem claim_C4_witness :
    get_to_python_field (.scalar .intK) (render_spec .intK (.int 42)) = .ok (.int 42) ∧
    get_to_python_field (.scalar .jsonK) (render_spec .jsonK Val.none) =
      .error .malformedJson :=
  ⟨(claim_C4_amended .intK (.int 42)
      (List.Mem.tail _ (List.Mem.tail _ (List.Mem.head _)))).1
      (fun h => ScalarKind.noConfusion h.1),
   (claim_C4_amended .jsonK Val.none (List.Mem.head _)).2 ⟨rfl, rfl⟩⟩

/-- Claim C5, failing evaluation.  The claim states that when resolution
of a cached `(heading, cell)` pair produced nothing, the raw cell text is
used in the materialized row.  In the source the raw-text default of
`obj_by_nk_by_field[field].get(str_value, str_value)` (utils.py line 285)
is unreachable — membership was just checked one line above — so an
unresolved `[X]` materializes as `None`, not as the string `"[X]"`,
contradicting the comment above that very line. -/
theorem claim_C5_failing_eval :
    parse_step_objects custMissStepModel custMissTable false =
      .ok ([[("customer", Val.none)]],
           [.fetchByIds "customer" [], .nkLookup "Customer" [.scalar "X"]]) := by rfl

/-- Claim C6: classification of a cell of a natural-key capable reference
column (utils.py lines 206-217): the empty cell contributes nothing and
raises nothing; a bracket-delimited cell is parsed as a natural-key
sequence; a bare digit string contributes no natural-key entry (it is a
literal identifier); any other non-empty cell raises the error telling
the author to write a bracketed sequence, carrying the offending value. -/
theorem claim_C6 (value : String) :
    (value = "" → scanNkCell value = .ok Option.none) ∧
    (strHead value = some '[' → strLast value = some ']' →
      scanNkCell value = .ok (some (yamlParse value))) ∧
    (value ≠ "" → ¬(strHead value = some '[' ∧ strLast value = some ']') →
      strIsDigit value = true → scanNkCell value = .ok Option.none) ∧
    (value ≠ "" → ¬(strHead value = some '[' ∧ strLast value = some ']') →
      strIsDigit value = false → scanNkCell value = .error (.ambiguousValue value)) := by
  refine ⟨?_, ?_, ?_, ?_⟩
  · rintro rfl; rfl
  · intro h1 h2
    have hne : value ≠ "" := by
      intro he; subst he; simp [strHead] at h1
    simp [scanNkCell, hne, h1, h2]
  · intro hne hnb hd
    simp [scanNkCell, hne, hnb, hd]
  · intro hne hnb hd
    simp [scanNkCell, hne, hnb, hd]

/-- Claim C6, witness: all four cell classes at concrete cells. -/
theorem claim_C6_witness :
    scanNkCell "" = .ok Option.none ∧
    scanNkCell "[S1]" = .ok (some (.seq [.scalar "S1"])) ∧
    scanNkCell "12" = .ok Option.none ∧
    scanNkCell "abc" = .error (.ambiguousValue "abc") :=
  ⟨(claim_C6 "").1 rfl,
   ((claim_C6 "[S1]").2.1 rfl rfl).trans (by rfl),
   (claim_C6 "12").2.2.1 (by decide) (by decide) rfl,
   (claim_C6 "abc").2.2.2 (by decide) (by decide) rfl⟩

/-- Claim C7, counterexample.  The claim's first, highest-priority rule
says the empty cell coerces to `null` for every field kind (the only
exception being the two-character literals on string fields).  On a
JSON-typed field the branch returns `json.loads(value)` with no
empty-cell check (utils.py line 336), so the empty cell raises
`MalformedJsonError` instead of coercing to `null`. -/
theorem claim_C7_counterexample :
    get_to_python_field (.scalar .jsonK) "" = .error .malformedJson := rfl

/-- Claim C7, amended: the empty cell coerces to `null` for every
non-JSON field kind; on string/text fields the two-character literals
give the actual empty string; on a JSON field EVERY cell — the empty one
included — is parsed as JSON and an invalid string raises
`MalformedJsonError`; on the remaining scalar kinds the canonical
conversion is applied with failure returning `null` rather than
raising. -/
theorem claim_C7_amended :
    (∀ k : FieldKind, k ≠ .scalar .jsonK → get_to_python_field k "" = .ok Val.none) ∧
    (∀ q, (q = "\"\"" ∨ q = twoSingleQuotes) →
      get_to_python_field (.scalar .charK) q = .ok (.str "") ∧
      get_to_python_field (.scalar .textK) q = .ok (.str "")) ∧
    (∀ s j, parseJson s = some j →
      get_to_python_field (.scalar .jsonK) s = .ok (jsonToVal j)) ∧
    (∀ s, parseJson s = Option.none →
      get_to_python_field (.scalar .jsonK) s = .error .malformedJson) ∧
    (∀ (k : ScalarKind) s, k ≠ .jsonK → toPython k s = Option.none →
      get_to_python_field (.scalar k) s = .ok Val.none) := by
  refine ⟨?_, ?_, ?_, ?_, ?_⟩
  · intro k hk
    cases k with
    | foreignKey pk => rfl
    | scalar sk => cases sk <;> first | rfl | exact absurd rfl hk
  · rintro q (rfl | rfl) <;> exact ⟨rfl, rfl⟩
  · intro s j h; simp [get_to_python_field, h]
  · intro s h; simp [get_to_python_field, h]
  · intro k s hk h
    cases k <;>
      first
        | exact absurd rfl hk
        | (refine absurd h ?_; simp only [toPython]; exact fun hh => Option.noConfusion hh)
        | simp [get_to_python_field, tryToPython, h]

/-- Claim C7, witness: every amended rule at a concrete cell. -/
theorem claim_C7_witness :
    get_to_python_field (.scalar .intK) "" = .ok Val.none ∧
    get_to_python_field (.scalar .charK) "\"\"" = .ok (.str "") ∧
    get_to_python_field (.scalar .jsonK) "xx" = .error .malformedJson ∧
    get_to_python_field (.scalar .intK) "abc" = .ok Val.none :=
  ⟨claim_C7_amended.1 (.scalar .intK) (fun h => by cases h),
   (claim_C7_amended.2.1 "\"\"" (Or.inl rfl)).1,
   claim_C7_amended.2.2.2.1 "xx" rfl,
   claim_C7_amended.2.2.2.2 .intK "abc" (fun h => ScalarKind.noConfusion h) rfl⟩

/-- Claim C8, counterexample.  The claim says the coercer returns the raw
cell string unchanged for every non-empty input on a reference field.
The source instead swaps in the related model's primary-key field and
converts (utils.py lines 322-326 and its own docstring), so the cell
`"5"` on a foreign key with an integer primary key coerces to the
INTEGER 5, not to the string `"5"`. -/
theorem claim_C8_counterexample :
    get_to_python_field (.foreignKey .intK) "5" = .ok (.int 5) := rfl

/-- Claim C8, amended: on a reference field the coercer maps the empty
cell to `null` and converts every other cell through the target model's
primary-key field — a numeric string becomes an integer, an
unconvertible string becomes `null` — and never produces an entity
instance itself: resolution to a concrete reference stays with the
Reference Resolver. -/
theorem claim_C8_amended :
    (∀ pk, get_to_python_field (.foreignKey pk) "" = .ok Val.none) ∧
    (∀ s n, parseIntStr s = some n →
      get_to_python_field (.foreignKey .intK) s = .ok (.int n)) ∧
    (∀ s, s ≠ "" → parseIntStr s = Option.none →
      get_to_python_field (.foreignKey .intK) s = .ok Val.none) ∧
    (∀ pk v o, get_to_python_field (.foreignKey pk) v ≠ .ok (.obj o)) := by
  refine ⟨?_, ?_, ?_, ?_⟩
  · intro pk; rfl
  · intro s n h
    have hs : s ≠ "" := by
      rintro rfl; simp [parseIntStr, parseNatStr, strIsDigit] at h
    simp [get_to_python_field, hs, tryToPython, toPython, h]
  · intro s hs h
    simp [get_to_python_field, hs, tryToPython, toPython, h]
  · intro pk v o h
    by_cases hv : v = ""
    · subst hv; exact Val.noConfusion (Except.ok.inj h)
    · simp only [get_to_python_field, hv, if_false, tryToPython] at h
      rcases htp : toPython pk v with _ | w
      · rw [htp] at h; exact Val.noConfusion (Except.ok.inj h)
      · rw [htp] at h
        have := Except.ok.inj h
        subst this
        exact toPython_not_obj pk v o htp

/-- Claim C8, witness: the amended behaviors at concrete cells. -/
theorem claim_C8_witness :
    get_to_python_field (.foreignKey .intK) "" = .ok Val.none ∧
    get_to_python_field (.foreignKey .intK) "7" = .ok (.int 7) ∧
    get_to_python_field (.foreignKey .intK) "abc" = .ok Val.none ∧
    get_to_python_field (.foreignKey .intK) "5" ≠ .ok (.obj (Obj.mk 5 "x")) :=
  ⟨claim_C8_amended.1 .intK,
   claim_C8_amended.2.1 "7" 7 rfl,
   claim_C8_amended.2.2.1 "abc" (by decide) rfl,
   claim_C8_amended.2.2.2 .intK "5" (Obj.mk 5 "x")⟩

/-- Claim C9, counterexample.  The claim says a duplicate identifying
tuple fails fast with an error "surfacing the duplicate key and both
colliding rows".  The raised `MultipleObjectsReturned` interpolates only
the identifying-field list into its message (db.py lines 170-171): on two
actual rows both keyed `"ZZZ"`, the error's payload is the field list
`["id"]`, which contains neither the duplicate key `"ZZZ"` nor either
colliding row value. -/
theorem claim_C9_counterexample :
    database_has_rows_compare ["id"] ["id", "name"]
      [cmpRow "ZZZ" "r1", cmpRow "ZZZ" "r2"] ([] : List (String → String)) =
      .error (.multipleObjects ["id"]) ∧
    ["id"].contains "ZZZ" = false ∧
    ["id"].contains "r1" = false ∧
    ["id"].contains "r2" = false :=
  ⟨by rfl, by decide, by decide, by decide⟩

/-- Claim C9, amended: duplicate identifying tuples among actual rows
fail fast with `MultipleObjectsReturned` before any key-set or cell
comparison (regardless of the expected side), but the error names only
the identifying-field list — not the duplicate key or the colliding
rows; a key-set mismatch reports both key views; a per-key cell mismatch
reports both rendered rows. -/
theorem claim_C9_amended {α : Type} [DecidableEq α] :
    (∀ (x y1 y2 : α) (expected : List (String → α)),
      database_has_rows_compare ["id"] ["id", "name"]
        [cmpRow x y1, cmpRow x y2] expected = .error (.multipleObjects ["id"])) ∧
    (∀ x y x' y' : α, x ≠ x' →
      database_has_rows_compare ["id"] ["id", "name"] [cmpRow x y] [cmpRow x' y'] =
        .error (.keySetMismatch [[x]] [[x']])) ∧
    (∀ x y y' : α, y ≠ y' →
      database_has_rows_compare ["id"] ["id", "name"] [cmpRow x y] [cmpRow x y'] =
        .error (.rowMismatch [("id", x), ("name", y)] [("id", x), ("name", y')])) := by
  refine ⟨?_, ?_, ?_⟩
  · intro x y1 y2 expected
    simp [database_has_rows_compare, buildActualById, buildActualGo, keyOfRow,
          alookup, cmpRow, Except.bind]
  · intro x y x' y' h
    simp [database_has_rows_compare, buildActualById, buildActualGo,
          buildExpectedById, buildExpectedGo, tupleInsert, keyOfRow,
          alookup, cmpRow, Except.bind, sameKeySet, h]
  · intro x y y' h
    simp [database_has_rows_compare, buildActualById, buildActualGo,
          buildExpectedById, buildExpectedGo, tupleInsert, keyOfRow,
          alookup, cmpRow, Except.bind, sameKeySet, compareRows, dictEq, h]

/-- Claim C9, witness: the three comparison outcomes at concrete rows. -/
theorem claim_C9_witness :
    database_has_rows_compare ["id"] ["id", "name"]
      [cmpRow "k" "u", cmpRow "k" "v"] ([] : List (String → String)) =
      .error (.multipleObjects ["id"]) ∧
    database_has_rows_compare ["id"] ["id", "name"] [cmpRow "a" "u"] [cmpRow "b" "u"] =
      .error (.keySetMismatch [["a"]] [["b"]]) ∧
    database_has_rows_compare ["id"] ["id", "name"] [cmpRow "a" "u"] [cmpRow "a" "v"] =
      .error (.rowMismatch [("id", "a"), ("name", "u")] [("id", "a"), ("name", "v")]) :=
  ⟨claim_C9_amended.1 "k" "u" "v" [],
   claim_C9_amended.2.1 "a" "u" "b" "u" (by decide),
   claim_C9_amended.2.2 "a" "u" "v" (by decide)⟩

/-- Claim C10: when the target of a natural-key capable field exposes
only a field named `nk` (no manager `get_by_natural_key`), resolving a
bracketed cell falls back to `queryset.get(nk=nk_args[0])` — the unique
entity whose `nk` equals the first key element — and on this path a miss
raises the target's not-found error in BOTH modes, because the fallback
runs inside the `except AttributeError:` handler where the
`raise_exceptions` guard does not apply (utils.py lines 271-272). -/
theorem claim_C10 (fkm : FkModel) (strict : Bool) (a : YamlItem) (rest : List YamlItem)
    (hNoMgr : fkm.hasGetByNaturalKey = false) :
    (∀ e, fkm.nkGet a = some e →
      resolveNkLookup fkm strict (.seq (a :: rest)) =
        .ok (.plain (.obj e), [.nkGet fkm.name a])) ∧
    (fkm.nkGet a = Option.none →
      resolveNkLookup fkm strict (.seq (a :: rest)) =
        .error (.doesNotExistBare fkm.name)) := by
  constructor
  · intro e he; simp [resolveNkLookup, yamlArgs, hNoMgr, he]
  · intro hmiss; simp [resolveNkLookup, yamlArgs, hNoMgr, hmiss]

/-- Claim C10, witness: the fallback's hit and its non-strict miss. -/
theorem claim_C10_witness :
    resolveNkLookup studentNkModel false (.seq [.scalar "S1"]) =
      .ok (.plain (.obj (Obj.mk 3 "s1")), [.nkGet "Student" (.scalar "S1")]) ∧
    resolveNkLookup studentNkModel false (.seq [.scalar "S9"]) =
      .error (.doesNotExistBare "Student") :=
  ⟨(claim_C10 studentNkModel false (.scalar "S1") [] rfl).1 (Obj.mk 3 "s1") rfl,
   (claim_C10 studentNkModel false (.scalar "S9") [] rfl).2 rfl⟩

end ExplicitBehave
